import Mathlib

/-!
Verification of the Eurostat budget-dashboard application (`src/app.py`)
against its natural-language specification.

The embedding is shallow: one pandas `DataFrame` row becomes an `Obs`
record; a dataset becomes a `List Obs`; a Python dict of filters becomes a
list of (column accessor, expected value) pairs; numeric cells are `ℚ`
with `Option` marking a missing value (pandas `NaN`).
-/

/-- One row of the dataset.  The categorical columns (`sector`, `unit`,
`na_item`, `geo\TIME_PERIOD`, `cofog99`) and the joined display columns
(`country`, `category`) are strings; the year columns are an association
list from year string to value, with absence modelling pandas `NaN`. -/
structure Obs where
  sector : String
  unit : String
  na_item : String
  geo : String
  cofog99 : String
  country : String
  category : String
  values : List (String × ℚ)
deriving DecidableEq

/-- Value of a row at a given year column (`None` for a missing cell). -/
def Obs.val (o : Obs) (year : String) : Option ℚ :=
  o.values.lookup year

/-- The user's current selection: the slider year and the two
multi-select pickers (category codes and country codes). -/
structure Selection where
  year : Nat
  categories : List String
  countries : List String
deriving DecidableEq

/-- `filter_data` from `src/app.py` lines 12-16: starting from the full
data, successively keep the rows where each filter column equals its
expected value.  A Python dict of filters is embedded as a list of
(column accessor, expected value) pairs in insertion order. -/
def filter_data (full_data : List Obs) (filters : List ((Obs → String) × String)) :
    List Obs :=
  filters.foldl
    (fun filtered_data f =>
      filtered_data.filter (fun o => f.1 o == f.2))
    full_data

/-- The fixed filter applied at `src/app.py` lines 47-49 to build
`filtered_data`: sector S13, unit PC_GDP, na_item TE. -/
def fixedFilters : List ((Obs → String) × String) :=
  [(Obs.sector, "S13"), (Obs.unit, "PC_GDP"), (Obs.na_item, "TE")]

/-- The application's filtered dataset as a function of the full data. -/
def filteredData (full_data : List Obs) : List Obs :=
  filter_data full_data fixedFilters

/-- One row of the long-form table handed to `px.bar` at `src/app.py`
line 122: the joined display labels and the rescaled `value` column.
`value` is `None` when the year cell was missing (pandas `NaN`). -/
structure ProjRow where
  country : String
  category : String
  value : Option ℚ
deriving DecidableEq

/-- The two row filters of `my_widget` (`src/app.py` lines 112-119): keep
rows whose `geo\TIME_PERIOD` is in the selected countries, then rows
whose `cofog99` is in the selected categories. -/
def plotFilter (fd : List Obs) (countries categories : List String) : List Obs :=
  let plot_data := fd.filter (fun o => decide (o.geo ∈ countries))
  plot_data.filter (fun o => decide (o.cofog99 ∈ categories))

/-- The projected rows of the chart table: the filtered rows with the
`value` column set to the cell at the selected year divided by 100
(`src/app.py` line 120).  A missing cell stays missing. -/
def projRows (fd : List Obs) (sel : Selection) : List ProjRow :=
  (plotFilter fd sel.countries sel.categories).map
    (fun o => ⟨o.country, o.category, (o.val (toString sel.year)).map (· / 100)⟩)

/-- `my_widget` (`src/app.py` lines 108-137): `None` when fewer than one
country or fewer than one category is selected, otherwise the projected
chart table. -/
def my_widget (fd : List Obs) (sel : Selection) : Option (List ProjRow) :=
  if sel.countries.length < 1 ∨ sel.categories.length < 1 then none
  else some (projRows fd sel)

/-- The bars actually drawn by the chart: `px.bar` draws no bar for a row
whose `value` is `NaN`, so the bar list keeps only rows with a present
value.  Each bar carries (country label, category label, value). -/
def chartBars (fd : List Obs) (sel : Selection) : Option (List (String × String × ℚ)) :=
  (my_widget fd sel).map
    (fun rows => rows.filterMap (fun r => r.value.map (fun v => (r.country, r.category, v))))

/-- Ordering by display label used at `src/app.py` lines 54 and 57:
`sorted(dict.items(), key=lambda x: x[1])`.  Python's `sorted` is a
stable sort by the key; it is embedded as Mathlib's stable
`insertionSort` under this relation. -/
def labelLe (a b : String × String) : Prop :=
  a.2 ≤ b.2

instance : DecidableRel labelLe :=
  fun a b => inferInstanceAs (Decidable (a.2 ≤ b.2))

instance : IsTotal (String × String) labelLe :=
  ⟨fun a b => le_total a.2 b.2⟩

instance : IsTrans (String × String) labelLe :=
  ⟨fun _ _ _ => le_trans⟩

/-- The country codes occurring in the data:
`full_data["geo\TIME_PERIOD"].unique().tolist()` (`src/app.py` line 51). -/
def uniqCountries (full_data : List Obs) : List String :=
  (full_data.map Obs.geo).dedup

/-- The rebuilt country label index (`src/app.py` lines 52-56): entries
sorted by display label, keeping only codes present in the data. -/
def geoIndex (geo_titles : List (String × String)) (uniq_countries : List String) :
    List (String × String) :=
  (geo_titles.insertionSort labelLe).filter (fun kv => decide (kv.1 ∈ uniq_countries))

/-- The rebuilt category label index (`src/app.py` line 57): entries
sorted by display label, with no restriction on the keys. -/
def catIndex (cat_titles : List (String × String)) : List (String × String) :=
  cat_titles.insertionSort labelLe

/-- The choices offered by the category selector (`src/app.py` line 79):
`{k: v for k, v in cat_titles_dict.items() if len(k) < 5}`. -/
def plotCatChoices (cat_titles : List (String × String)) : List (String × String) :=
  (catIndex cat_titles).filter (fun kv => kv.1.length < 5)

/-- One record of `eurostat.get_data` after the header row: the coded
columns and the year cells, before the display labels are joined on. -/
structure RawRow where
  sector : String
  unit : String
  na_item : String
  geo : String
  cofog99 : String
  values : List (String × ℚ)
deriving DecidableEq

/-- The result of the three remote fetches in `get_eurostat_data`:
the bulk data rows and the two code→label dictionaries as returned
(lists of pairs, possibly with repeated codes). -/
structure FetchResult where
  rows : List RawRow
  cat_titles : List (String × String)
  geo_titles : List (String × String)
deriving DecidableEq

/-- A Python dict comprehension `{x[0]: x[1] for x in l}`: insertion
order of first occurrence, last-write-wins on repeated keys. -/
def dictInsert (d : List (String × String)) (kv : String × String) :
    List (String × String) :=
  if d.any (fun p => p.1 == kv.1) then
    d.map (fun p => if p.1 == kv.1 then (p.1, kv.2) else p)
  else d ++ [kv]

def buildDict (l : List (String × String)) : List (String × String) :=
  l.foldl dictInsert []

/-- Python `d[k]` on the embedded dict: `None` models a `KeyError`. -/
def dictGet (d : List (String × String)) (k : String) : Option String :=
  (d.find? (fun p => p.1 == k)).map Prod.snd

/-- Attach the `country` and `category` display columns to one data row
(`src/app.py` lines 35-38); the lookup fails hard when a code is missing
from its dictionary. -/
def joinRow (cat_titles_dict geo_titles_dict : List (String × String)) (r : RawRow) :
    Option Obs :=
  match dictGet geo_titles_dict r.geo, dictGet cat_titles_dict r.cofog99 with
  | some c, some cat =>
      some ⟨r.sector, r.unit, r.na_item, r.geo, r.cofog99, c, cat, r.values⟩
  | _, _ => none

def buildFullData (cat_titles_dict geo_titles_dict : List (String × String))
    (rows : List RawRow) : Option (List Obs) :=
  rows.mapM (joinRow cat_titles_dict geo_titles_dict)

/-- The triple pickled to and unpickled from `data.cache`:
`[full_data, cat_titles_dict, geo_titles_dict]` in that order. -/
def CacheTriple : Type :=
  List Obs × List (String × String) × List (String × String)

instance : DecidableEq CacheTriple :=
  inferInstanceAs (DecidableEq (List Obs × List (String × String) × List (String × String)))

/-- `get_eurostat_data` (`src/app.py` lines 19-43) as a function of the
cache file's contents and the remote fetch result.  `pickle` is modelled
as value-faithful: the file holds the dumped triple.  Returns the triple
handed to the caller together with the cache contents after the call;
`none` models the `KeyError` crash when a code is missing from its
dictionary during the label join. -/
def get_eurostat_data (cache : Option CacheTriple) (fetch : FetchResult) :
    Option (CacheTriple × Option CacheTriple) :=
  match cache with
  | some t => some (t, some t)
  | none =>
      let cat_titles_dict := buildDict fetch.cat_titles
      let geo_titles_dict := buildDict fetch.geo_titles
      (buildFullData cat_titles_dict geo_titles_dict fetch.rows).map
        (fun full_data =>
          ((full_data, cat_titles_dict, geo_titles_dict),
           some (full_data, cat_titles_dict, geo_titles_dict)))

/-- The row filters of `download_data` (`src/app.py` lines 141-148),
written inline in the source exactly as in `my_widget`. -/
def downloadRows (fd : List Obs) (sel : Selection) : List Obs :=
  let plot_data := fd.filter (fun o => decide (o.geo ∈ sel.countries))
  plot_data.filter (fun o => decide (o.cofog99 ∈ sel.categories))

/-- Rendering of one value cell in `to_csv`: a missing cell (`NaN`)
prints as the empty field. -/
def valCell : Option ℚ → String
  | none => ""
  | some q => toString q

/-- The header row of the exported CSV: every column of the filtered
dataset (the coded columns, the year columns, the joined labels). -/
def csvHeader (years : List String) : List String :=
  ["sector", "unit", "na_item", "geo\\TIME_PERIOD", "cofog99"] ++ years
    ++ ["country", "category"]

/-- One exported data row: every field of the observation, with the year
cells as stored (no rescale). -/
def csvCells (years : List String) (o : Obs) : List String :=
  [o.sector, o.unit, o.na_item, o.geo, o.cofog99] ++ years.map (fun y => valCell (o.val y))
    ++ [o.country, o.category]

/-- `download_data` (`src/app.py` lines 139-152): the filtered rows
serialized with `to_csv`, header row first.  The artificial
`asyncio.sleep` has no effect on the produced document. -/
def download_data (years : List String) (fd : List Obs) (sel : Selection) :
    List (List String) :=
  csvHeader years :: (downloadRows fd sel).map (csvCells years)

/- Concrete sample data used in scenarios and witnesses. -/

/-- The Finland/GF01 row of the specification's scenario: value "34.5"
at year 2021. -/
def finObs : Obs :=
  { sector := "S13", unit := "PC_GDP", na_item := "TE", geo := "FI",
    cofog99 := "GF01", country := "Finland", category := "General public services",
    values := [("2021", 34.5)] }

/-- A row with no value at year 2015 (the cell is missing). -/
def missObs : Obs :=
  { sector := "S13", unit := "PC_GDP", na_item := "TE", geo := "FI",
    cofog99 := "GF01", country := "Finland", category := "General public services",
    values := [("2014", 10)] }

/-- A category dictionary with a code absent from the sample data and
with a duplicated display label. -/
def catDictC6 : List (String × String) :=
  [("GF01", "Alpha"), ("ZZZZZ", "Alpha")]

/-- The Finland/GF01 row as the remote source returns it, before the
label join. -/
def rawFin : RawRow :=
  { sector := "S13", unit := "PC_GDP", na_item := "TE", geo := "FI",
    cofog99 := "GF01", values := [("2021", 34.5)] }

/-- A concrete fetch result whose label join succeeds. -/
def fetchW : FetchResult :=
  { rows := [rawFin], cat_titles := [("GF01", "General public services")],
    geo_titles := [("FI", "Finland")] }

/-- The triple produced from `fetchW` by the fetch-and-join path. -/
def tripleW : CacheTriple :=
  ([finObs], [("GF01", "General public services")], [("FI", "Finland")])

/- Helper lemmas about `filter_data`, the chart projection and the
label indexes. -/

theorem filter_data_nil (filters : List ((Obs → String) × String)) :
    filter_data [] filters = [] := by
  induction filters with
  | nil => rfl
  | cons f fs ih =>
      simp only [filter_data, List.foldl_cons, List.filter_nil] at *
      exact ih

theorem filter_data_cons (d : List Obs) (f : (Obs → String) × String)
    (fs : List ((Obs → String) × String)) :
    filter_data d (f :: fs) = filter_data (d.filter (fun o => f.1 o == f.2)) fs := by
  rfl

theorem mem_filter_data (d : List Obs) (fs : List ((Obs → String) × String)) (x : Obs) :
    x ∈ filter_data d fs ↔ x ∈ d ∧ ∀ p ∈ fs, p.1 x = p.2 := by
  induction fs generalizing d with
  | nil => simp [filter_data]
  | cons f fs ih =>
      rw [filter_data_cons, ih]
      simp only [List.mem_filter, beq_iff_eq, List.mem_cons]
      constructor
      · rintro ⟨⟨hx, hf⟩, hall⟩
        refine ⟨hx, ?_⟩
        rintro p (rfl | hp)
        · exact hf
        · exact hall p hp
      · rintro ⟨hx, hall⟩
        exact ⟨⟨hx, hall f (Or.inl rfl)⟩, fun p hp => hall p (Or.inr hp)⟩

theorem filter_data_eq_filter (d : List Obs) (fs : List ((Obs → String) × String)) :
    filter_data d fs = d.filter (fun x => fs.all (fun p => p.1 x == p.2)) := by
  induction fs generalizing d with
  | nil => simp [filter_data]
  | cons f fs ih =>
      rw [filter_data_cons, ih, List.filter_filter]
      apply List.filter_congr
      intro x _
      simp [Bool.and_comm]

theorem mem_plotFilter (fd : List Obs) (countries categories : List String) (o : Obs) :
    o ∈ plotFilter fd countries categories ↔
      o ∈ fd ∧ o.geo ∈ countries ∧ o.cofog99 ∈ categories := by
  simp only [plotFilter, List.mem_filter, decide_eq_true_iff, and_assoc]

theorem mem_projRows (fd : List Obs) (sel : Selection) (r : ProjRow) :
    r ∈ projRows fd sel ↔
      ∃ o, o ∈ fd ∧ o.geo ∈ sel.countries ∧ o.cofog99 ∈ sel.categories ∧
        r = ⟨o.country, o.category, (o.val (toString sel.year)).map (· / 100)⟩ := by
  simp only [projRows, List.mem_map, mem_plotFilter]
  constructor
  · rintro ⟨o, ⟨h1, h2, h3⟩, rfl⟩
    exact ⟨o, h1, h2, h3, rfl⟩
  · rintro ⟨o, h1, h2, h3, rfl⟩
    exact ⟨o, ⟨h1, h2, h3⟩, rfl⟩

theorem geoIndex_pairwise (geo_titles : List (String × String))
    (uniq_countries : List String) :
    (geoIndex geo_titles uniq_countries).Pairwise (fun a b => a.2 ≤ b.2) := by
  have h : (geo_titles.insertionSort labelLe).Pairwise labelLe :=
    List.sorted_insertionSort labelLe geo_titles
  have h2 : (geoIndex geo_titles uniq_countries).Pairwise labelLe :=
    h.sublist (List.filter_sublist (geo_titles.insertionSort labelLe))
  exact h2

theorem catIndex_pairwise (cat_titles : List (String × String)) :
    (catIndex cat_titles).Pairwise (fun a b => a.2 ≤ b.2) :=
  List.sorted_insertionSort labelLe cat_titles

/-- General idempotence of `filter_data`. -/
theorem filter_data_idem (d : List Obs) (fs : List ((Obs → String) × String)) :
    filter_data (filter_data d fs) fs = filter_data d fs := by
  rw [filter_data_eq_filter, filter_data_eq_filter, List.filter_filter]
  apply List.filter_congr
  intro x _
  simp

/-- C2: `filter_data` returns exactly the rows satisfying every equality
check of the filter mapping (a logical AND); every row of the
application's filtered dataset has sector "S13", unit "PC_GDP" and
na_item "TE"; and filtering an already-filtered dataset with the same
filters yields the same dataset. -/
theorem claim_C2_filter_data_and_fixed_invariant :
    (∀ (d : List Obs) (fs : List ((Obs → String) × String)) (x : Obs),
      x ∈ filter_data d fs ↔ x ∈ d ∧ ∀ p ∈ fs, p.1 x = p.2) ∧
    (∀ (d : List Obs), ∀ o ∈ filteredData d,
      o.sector = "S13" ∧ o.unit = "PC_GDP" ∧ o.na_item = "TE") ∧
    (∀ (d : List Obs) (fs : List ((Obs → String) × String)),
      filter_data (filter_data d fs) fs = filter_data d fs) := by
  refine ⟨mem_filter_data, ?_, filter_data_idem⟩
  intro d o ho
  rw [filteredData, mem_filter_data] at ho
  obtain ⟨-, hall⟩ := ho
  exact ⟨hall (Obs.sector, "S13") (by simp [fixedFilters]),
         hall (Obs.unit, "PC_GDP") (by simp [fixedFilters]),
         hall (Obs.na_item, "TE") (by simp [fixedFilters])⟩

theorem claim_C2_filter_data_and_fixed_invariant_witness :
    finObs ∈ filteredData [finObs] ∧
    finObs.sector = "S13" ∧ finObs.unit = "PC_GDP" ∧ finObs.na_item = "TE" :=
  ⟨by simp [filteredData, filter_data, fixedFilters, finObs],
   claim_C2_filter_data_and_fixed_invariant.2.1 [finObs] finObs
     (by simp [filteredData, filter_data, fixedFilters, finObs])⟩

/-- C6 counterexample: with category dictionary
`[("GF01", "Alpha"), ("ZZZZZ", "Alpha")]` and data containing only the
category code GF01, the built category index keeps the key ZZZZZ even
though it is absent from the data, and its entries are not strictly
sorted by label (the label "Alpha" repeats); so the claim that every
built label index has keys inside the data's codes and is strictly
sorted by label is false. -/
theorem claim_C6_label_index_counterexample :
    ("ZZZZZ", "Alpha") ∈ catIndex catDictC6 ∧
    "ZZZZZ" ∉ [finObs].map Obs.cofog99 ∧
    ¬ (catIndex catDictC6).Pairwise (fun a b => a.2 < b.2) := by
  have h : catIndex catDictC6 = catDictC6 := by
    simp [catIndex, catDictC6, labelLe]
  refine ⟨?_, ?_, ?_⟩
  · rw [h]; simp [catDictC6]
  · simp [finObs]
  · rw [h]
    intro hp
    rcases List.pairwise_cons.mp hp with ⟨h1, -⟩
    exact absurd (h1 _ (List.mem_singleton.mpr rfl)) (lt_irrefl _)

/-- C6 amended: the built country index has keys inside the country
codes present in the data and is sorted by label in non-decreasing
(weakly ascending) lexicographic order; the built category index is
likewise sorted by label but its key set equals the key set of the
input dictionary (it is not restricted to codes present in the data). -/
theorem claim_C6_label_index_amended (geo_titles cat_titles : List (String × String))
    (fd : List Obs) :
    (∀ kv ∈ geoIndex geo_titles (uniqCountries fd), kv.1 ∈ fd.map Obs.geo) ∧
    (geoIndex geo_titles (uniqCountries fd)).Pairwise (fun a b => a.2 ≤ b.2) ∧
    (catIndex cat_titles).Pairwise (fun a b => a.2 ≤ b.2) ∧
    (∀ k, k ∈ (catIndex cat_titles).map Prod.fst ↔ k ∈ cat_titles.map Prod.fst) := by
  refine ⟨?_, geoIndex_pairwise geo_titles (uniqCountries fd),
    catIndex_pairwise cat_titles, ?_⟩
  · intro kv h
    rw [geoIndex, List.mem_filter] at h
    have h2 := h.2
    simp only [decide_eq_true_iff] at h2
    rw [uniqCountries, List.mem_dedup] at h2
    exact h2
  · intro k
    exact ((List.perm_insertionSort labelLe cat_titles).map Prod.fst).mem_iff

theorem claim_C6_label_index_amended_witness :
    ("FI" : String) ∈ [finObs].map Obs.geo :=
  (claim_C6_label_index_amended [("FI", "Finland"), ("SE", "Sweden")]
      catDictC6 [finObs]).1 ("FI", "Finland")
    (by simp [geoIndex, uniqCountries, finObs, labelLe]; decide)

/-- C8: the CSV export starts with the header row listing every column
of the filtered dataset; its data rows are exactly the rows matching
the same country/category selection as the chart (no emptiness guard,
so an empty selection gives a header-only document), serialized with
every observation field; the year cells hold the stored values with no
rescale. -/
theorem claim_C8_csv_export (years : List String) (fd : List Obs) (sel : Selection) :
    (download_data years fd sel).head? = some (csvHeader years) ∧
    downloadRows fd sel = plotFilter fd sel.countries sel.categories ∧
    (∀ o, o ∈ downloadRows fd sel ↔
      o ∈ fd ∧ o.geo ∈ sel.countries ∧ o.cofog99 ∈ sel.categories) ∧
    (download_data years fd sel).tail = (downloadRows fd sel).map (csvCells years) ∧
    (∀ o y, o ∈ downloadRows fd sel → y ∈ years →
      valCell (o.val y) ∈ csvCells years o) := by
  refine ⟨rfl, rfl, ?_, rfl, ?_⟩
  · intro o
    exact mem_plotFilter fd sel.countries sel.categories o
  · intro o y _ hy
    rw [csvCells]
    exact List.mem_append_left _
      (List.mem_append_right _ (List.mem_map_of_mem _ hy))

theorem claim_C8_csv_export_witness :
    valCell (finObs.val "2021") ∈ csvCells ["2021"] finObs :=
  (claim_C8_csv_export ["2021"] [finObs] ⟨2021, ["GF01"], ["FI"]⟩).2.2.2.2 finObs "2021"
    (by simp [downloadRows, finObs]) (by simp)

/-- C9: round-trip of the dataset cache: a first call with no cache file
returns the freshly fetched, label-joined triple and writes exactly that
triple to the cache; a second call that finds the written cache returns
a triple identical by value to the first call's result, leaving the
cache unchanged. -/
theorem claim_C9_cache_roundtrip (fetch : FetchResult) (t : CacheTriple)
    (c : Option CacheTriple)
    (h : get_eurostat_data none fetch = some (t, c)) :
    c = some t ∧ get_eurostat_data c fetch = some (t, c) := by
  rw [get_eurostat_data] at h
  cases hb : buildFullData (buildDict fetch.cat_titles) (buildDict fetch.geo_titles)
      fetch.rows with
  | none =>
      rw [hb] at h
      simp at h
  | some fd =>
      rw [hb] at h
      have h2 : (fd, buildDict fetch.cat_titles, buildDict fetch.geo_titles) = t ∧
          some (fd, buildDict fetch.cat_titles, buildDict fetch.geo_titles) = c := by
        simpa using h
      obtain ⟨ht, hc⟩ := h2
      subst ht
      subst hc
      exact ⟨rfl, rfl⟩

theorem claim_C9_cache_roundtrip_witness :
    some tripleW = some tripleW ∧
    get_eurostat_data (some tripleW) fetchW = some (tripleW, some tripleW) :=
  claim_C9_cache_roundtrip fetchW tripleW (some tripleW) rfl

/-- C10: `filter_data` with an empty filter mapping returns the input
dataset unchanged. -/
theorem claim_C10_empty_filters_identity (d : List Obs) :
    filter_data d [] = d :=
  rfl

/-- C4: when the selected country list or the selected category list is
empty, `my_widget` returns the defined empty state `none` rather than
raising an error. -/
theorem claim_C4_empty_selection (fd : List Obs) (sel : Selection)
    (h : sel.countries = [] ∨ sel.categories = []) :
    my_widget fd sel = none := by
  rw [my_widget, if_pos]
  rcases h with h | h <;> simp [h]

theorem claim_C4_empty_selection_witness :
    my_widget [finObs] ⟨2021, [], ["FI"]⟩ = none :=
  claim_C4_empty_selection [finObs] ⟨2021, [], ["FI"]⟩ (Or.inr rfl)

/-- C7: every entry offered by the category selector has a code of
length at most 4; no code of length 5 or more is ever offered. -/
theorem claim_C7_short_category_codes (cat_titles : List (String × String))
    (kv : String × String) (h : kv ∈ plotCatChoices cat_titles) :
    ¬ 5 ≤ kv.1.length := by
  rw [plotCatChoices, List.mem_filter] at h
  have := h.2
  simp only [decide_eq_true_iff] at this
  omega

/-- C1: for a non-empty country and category selection, `my_widget`
returns exactly the rows whose country code is selected and whose
category code is selected, each carrying the display labels and the
value at the string form of the selected year divided by 100; in the
specification's scenario (year 2021, categories {GF01}, countries {FI},
source value 34.5) the projected value is 0.345 with country label
"Finland" and the category label joined to code GF01. -/
theorem claim_C1_projection :
    (∀ (fd : List Obs) (sel : Selection),
      sel.countries ≠ [] → sel.categories ≠ [] →
        my_widget fd sel = some (projRows fd sel)) ∧
    (∀ (fd : List Obs) (sel : Selection) (r : ProjRow),
      r ∈ projRows fd sel ↔
        ∃ o, o ∈ fd ∧ o.geo ∈ sel.countries ∧ o.cofog99 ∈ sel.categories ∧
          r = ⟨o.country, o.category, (o.val (toString sel.year)).map (· / 100)⟩) ∧
    my_widget [finObs] ⟨2021, ["GF01"], ["FI"]⟩ =
      some [⟨"Finland", "General public services", some ((0.345 : ℚ))⟩] := by
  refine ⟨?_, mem_projRows, ?_⟩
  · intro fd sel h1 h2
    rw [my_widget, if_neg]
    simp [Nat.lt_one_iff, List.length_eq_zero, h1, h2]
  · have hy : toString (2021 : Nat) = "2021" := rfl
    simp [my_widget, projRows, plotFilter, finObs, Obs.val, hy]
    norm_num

theorem claim_C1_projection_witness :
    my_widget [finObs] ⟨2021, ["GF01"], ["FI"]⟩ =
      some (projRows [finObs] ⟨2021, ["GF01"], ["FI"]⟩) :=
  claim_C1_projection.1 [finObs] ⟨2021, ["GF01"], ["FI"]⟩
    (by simp) (by simp)

/-- C3: every bar drawn by the chart comes from a row whose cell at the
selected year is present; a row whose cell is missing contributes no
bar (and in particular no bar with value 0); in the scenario, a row
with no value at year 2015 yields an empty bar list for a selection
with year 2015. -/
theorem claim_C3_missing_value_excluded :
    (∀ (fd : List Obs) (sel : Selection) (bs : List (String × String × ℚ)),
      chartBars fd sel = some bs → ∀ b ∈ bs,
        ∃ o, o ∈ fd ∧ o.geo ∈ sel.countries ∧ o.cofog99 ∈ sel.categories ∧
          ∃ v, o.val (toString sel.year) = some v ∧
            b = (o.country, o.category, v / 100)) ∧
    chartBars [missObs] ⟨2015, ["GF01"], ["FI"]⟩ = some [] := by
  constructor
  · intro fd sel bs h b hb
    rw [chartBars] at h
    cases hmw : my_widget fd sel with
    | none => rw [hmw] at h; simp at h
    | some rows =>
        rw [hmw] at h
        have hbs : rows.filterMap
            (fun r => r.value.map (fun v => (r.country, r.category, v))) = bs := by
          simpa using h
        rw [my_widget] at hmw
        split at hmw
        · exact absurd hmw (by simp)
        · have hrows : projRows fd sel = rows := Option.some.inj hmw
          subst hrows
          subst hbs
          rw [List.mem_filterMap] at hb
          obtain ⟨r, hr, hf⟩ := hb
          rw [mem_projRows] at hr
          obtain ⟨o, ho, hgeo, hcat, rfl⟩ := hr
          simp only [Option.map_map] at hf
          rw [Option.map_eq_some'] at hf
          obtain ⟨w, hw, hb⟩ := hf
          exact ⟨o, ho, hgeo, hcat, w, hw, hb.symm⟩
  · have hy : toString (2015 : Nat) = "2015" := rfl
    simp [chartBars, my_widget, projRows, plotFilter, missObs, Obs.val, hy]

theorem claim_C3_missing_value_excluded_witness :
    ∃ o, o ∈ [finObs] ∧ o.geo ∈ ["FI"] ∧ o.cofog99 ∈ ["GF01"] ∧
      ∃ v, o.val (toString (2021 : Nat)) = some v ∧
        (("Finland", "General public services", (0.345 : ℚ)) :
          String × String × ℚ) = (o.country, o.category, v / 100) := by
  have h := claim_C3_missing_value_excluded.1 [finObs] ⟨2021, ["GF01"], ["FI"]⟩
    [("Finland", "General public services", (0.345 : ℚ))]
    (by
      have hy : toString (2021 : Nat) = "2021" := rfl
      simp [chartBars, my_widget, projRows, plotFilter, finObs, Obs.val, hy]
      norm_num)
    ("Finland", "General public services", (0.345 : ℚ)) (by simp)
  exact h

/-- C5: the projection is monotonic in the selection: with the same
year, enlarging the selected category and country lists never removes a
row from the chart table. -/
theorem claim_C5_projection_monotone (fd : List Obs) (y : Nat)
    (ks cs ks' cs' : List String) (hk : ks ⊆ ks') (hc : cs ⊆ cs')
    (rows rows' : List ProjRow) (r : ProjRow)
    (h1 : my_widget fd ⟨y, ks, cs⟩ = some rows)
    (h2 : my_widget fd ⟨y, ks', cs'⟩ = some rows')
    (hr : r ∈ rows) : r ∈ rows' := by
  rw [my_widget] at h1 h2
  split at h1
  · exact absurd h1 (by simp)
  · split at h2
    · exact absurd h2 (by simp)
    · have e1 : projRows fd ⟨y, ks, cs⟩ = rows := Option.some.inj h1
      have e2 : projRows fd ⟨y, ks', cs'⟩ = rows' := Option.some.inj h2
      subst e1
      subst e2
      rw [mem_projRows] at hr ⊢
      obtain ⟨o, ho, hgeo, hcat, rfl⟩ := hr
      exact ⟨o, ho, hc hgeo, hk hcat, rfl⟩

theorem claim_C5_projection_monotone_witness :
    (⟨"Finland", "General public services", some ((0.345 : ℚ))⟩ : ProjRow) ∈
      projRows [finObs] ⟨2021, ["GF01", "GF02"], ["FI", "SE"]⟩ := by
  apply claim_C5_projection_monotone [finObs] 2021 ["GF01"] ["FI"]
    ["GF01", "GF02"] ["FI", "SE"]
    (by intro x hx; simp at hx; simp [hx])
    (by intro x hx; simp at hx; simp [hx])
    (projRows [finObs] ⟨2021, ["GF01"], ["FI"]⟩) _
    ⟨"Finland", "General public services", some ((0.345 : ℚ))⟩
    (by rw [my_widget, if_neg]; simp) (by rw [my_widget, if_neg]; simp)
  have hy : toString (2021 : Nat) = "2021" := rfl
  simp [projRows, plotFilter, finObs, Obs.val, hy]
  norm_num

theorem claim_C7_short_category_codes_witness :
    ¬ 5 ≤ (("GF01", "Alpha") : String × String).1.length :=
  claim_C7_short_category_codes catDictC6 ("GF01", "Alpha")
    (by simp [plotCatChoices, catIndex, catDictC6, labelLe]; decide)
